import Mathlib

/-
Verification of the webhook orchestrator of ExpTrackerBot.

The embedding mirrors the current webhook controller (the second revision in
the controller file) together with the shapes produced by the language-model
extraction schemas and the budgeting client.  Collaborator results (intent
classification, extraction output, accounts, categories, payees, balances,
budget month, current date) are supplied through an environment record: they
are the values the external services return for the single message being
processed.  Side effects are recorded in a trace list; JavaScript runtime
errors (null and undefined dereferences) are modelled with Except.
-/

namespace ExpTrackerBot

/-- Incoming webhook payload: `from`, `to`, `body` are required by the Joi
validation; `id` is optional (and falsy when the empty string, as in JS). -/
structure Payload where
  fromAddr : String
  toAddr : String
  body : String
  id : Option String
deriving DecidableEq

/-- Parsed webhook request body: `event` plus an optional `payload` object. -/
structure WebhookRequest where
  event : String
  payload : Option Payload
deriving DecidableEq

/-- Account entity of the budgeting backend (fields the handler uses). -/
structure Account where
  id : String
  name : String
  closed : Bool
deriving DecidableEq

/-- Category entity of the budgeting backend. -/
structure Category where
  id : String
  name : String
deriving DecidableEq

/-- Payee entity; `transfer_acct` is set on internal transfer payees and
holds the id of the account they transfer to or from. -/
structure Payee where
  id : String
  name : String
  transfer_acct : Option String
deriving DecidableEq

/-- One category inside a budget-month response; monetary fields are in
minor units (hundredths). -/
structure BudgetCategory where
  name : String
  budgeted : Int
  spent : Int
  balance : Int
deriving DecidableEq

/-- One category group inside a budget-month response. -/
structure CategoryGroup where
  name : String
  is_income : Bool
  categories : List BudgetCategory
deriving DecidableEq

/-- Budget-month response object.  The controller reads the field under two
different spellings (`categorGroups` in the named-category branch and
`categoryGroups` in the summary branch); JavaScript silently yields
`undefined` for an absent field, so both spellings are modelled as optional
fields, `none` meaning the field is absent from the response object.  The
real budgeting API populates only `categoryGroups`. -/
structure BudgetMonth where
  categorGroups : Option (List CategoryGroup)
  categoryGroups : Option (List CategoryGroup)
deriving DecidableEq

/-- Output of the transaction-extraction call.  `amount` is the numeric
value that `parseFloat` yields on the extracted decimal amount string (the
schema pre-normalizes strings such as "20k" to "20000"); decimal strings
parse to exact rationals.  `payee` is nullable by the extraction schema. -/
structure TransactionExtraction where
  description : String
  amount : ℚ
  category : String
  payee : Option String
  source_account_name : String
  message_to_user : String
deriving DecidableEq

/-- Output of the balance-query extraction call; `name` is nullable. -/
structure BalanceQuery where
  query_type : String
  name : Option String
deriving DecidableEq

/-- Outbound ledger transaction as built by the controller.  Absent object
fields are `none`; `amount` is in minor units. -/
structure LedgerTxn where
  date : String
  amount : ℚ
  payee : Option String
  payee_name : Option String
  notes : Option String
  category : Option String
  cleared : Bool
deriving DecidableEq

/-- JavaScript runtime error raised by dereferencing null or undefined. -/
inductive JsError where
  | typeError (msg : String)
deriving DecidableEq

/-- Observable side effects of one webhook invocation, in program order.
Concurrently issued reads are recorded in list order. -/
inductive Effect where
  | findOne (eventId : String)
  | createRecord (eventId : String)
  | sendSeen (chatId : String)
  | determineIntent (text : String)
  | processTransaction (text : String)
  | processBalanceQuery (text : String)
  | getAnswer (text : String)
  | actualInit
  | getAccounts
  | getCategories
  | getPayees
  | getAccountBalance (accountId : String)
  | getBudgetMonth (month : String)
  | addTransactions (accountId : String) (txns : List LedgerTxn)
  | shutdown
  | sendTextMessage (toAddr : String) (message : Option String)
deriving DecidableEq

/-- HTTP response sent by the controller on a normal return. -/
structure HttpResponse where
  statusCode : Nat
  status : String
deriving DecidableEq

deriving instance DecidableEq for Except

/-- Result of one invocation: the response (or the propagated error), the
idempotency store after the run, and the effect trace. -/
structure RunResult where
  result : Except JsError HttpResponse
  store : List String
  trace : List Effect
deriving DecidableEq

/-- Environment: the values the collaborators return during this single
invocation. -/
structure Env where
  intent : String
  transactionDetail : String
  txExtract : TransactionExtraction
  balQuery : BalanceQuery
  answer : String
  accounts : List Account
  categories : List Category
  payees : List Payee
  budgetMonth : BudgetMonth
  balances : String → Int
  today : String
  currentMonth : String

/-- Inserts a dot every three digits, working over a reversed digit list. -/
def groupDigitsAux : List Char → List Char
  | a :: b :: c :: d :: rest => a :: b :: c :: '.' :: groupDigitsAux (d :: rest)
  | l => l

/-- Groups the digits of a decimal numeral with dots, Indonesian style. -/
def groupThousands (s : String) : String :=
  String.mk ((groupDigitsAux s.toList.reverse).reverse)

/-- Model of `new Intl.NumberFormat` with locale id-ID and currency IDR, per
the output documented in the source comments, e.g. 150000 becomes
"Rp 150.000,00": dot grouping, comma decimal separator, two fraction
digits.  Every call site passes an exact multiple of 1/100, so the
truncation to whole cents is exact and agrees with the library rounding. -/
def formatIDR (q : ℚ) : String :=
  let cents : Int := q.num * 100 / (q.den : Int)
  let sign := if cents < 0 then "-" else ""
  let n := cents.natAbs
  let whole := n / 100
  let frac := n % 100
  let fracStr := (if frac < 10 then "0" else "") ++ toString frac
  sign ++ "Rp " ++ groupThousands (toString whole) ++ "," ++ fracStr

/-- Model of `String.prototype.toLowerCase` as used by the controller for
name comparison, applied characterwise (ASCII case mapping; the entity
names involved are ASCII). -/
def lowerStr (s : String) : String :=
  String.mk (s.data.map Char.toLower)

/-- Account lookup: `accounts.find(acc => acc.name.toLowerCase() ===
name.toLowerCase())`. -/
def findByNameAcc (accounts : List Account) (name : String) : Option Account :=
  accounts.find? (fun acc => lowerStr acc.name == lowerStr name)

/-- Category lookup: `categories.find(cat => cat.name.toLowerCase() ===
name.toLowerCase())`. -/
def findByNameCat (categories : List Category) (name : String) : Option Category :=
  categories.find? (fun cat => lowerStr cat.name == lowerStr name)

/-- Budget category lookup across all groups of a budget month. -/
def findBudgetCat (groups : List CategoryGroup) (name : String) : Option BudgetCategory :=
  (groups.flatMap (fun group => group.categories)).find? (fun cat => lowerStr cat.name == lowerStr name)

/-- Internal transfer payee lookup: `payees.find(p => p.transfer_acct ===
accountId)`. -/
def findTransferPayee (payees : List Payee) (accountId : String) : Option Payee :=
  payees.find? (fun p => p.transfer_acct == some accountId)

/-- Body of the `intent === transaction` try block: returns the value
assigned to `finalResponse` (or the raised error) and the effects of the
block.  When the extraction returned a null `payee` in the transfer case,
the callback of the destination-account `find` dereferences it (the source
account resolved, so the account list is nonempty and the callback runs)
and a TypeError is raised. -/
def transactionBranch (env : Env) (userInput : String) : Except JsError String × List Effect :=
  let tr0 : List Effect := [.actualInit, .getAccounts, .getCategories, .getPayees, .processTransaction userInput]
  let td := env.txExtract
  match findByNameAcc env.accounts td.source_account_name with
  | none => (.ok ("Sorry, I couldn\x27t find an account named \"" ++ td.source_account_name ++ "\"."), tr0)
  | some account =>
    let amountInCents : ℚ := td.amount * 100
    if env.transactionDetail == "transfer" then
      match td.payee with
      | none => (.error (.typeError "Cannot read properties of null (reading toLowerCase)"), tr0)
      | some payeeName =>
        match findByNameAcc env.accounts payeeName with
        | none => (.ok ("Sorry, I couldn\x27t find a destination account named \"" ++ payeeName ++ "\" for the transfer."), tr0)
        | some destinationAccount =>
          match findTransferPayee env.payees destinationAccount.id with
          | none => (.ok ("Sorry, I couldn\x27t find the internal transfer payee for account \"" ++ destinationAccount.name ++ "\"."), tr0)
          | some destinationTransferPayee =>
            match findTransferPayee env.payees account.id with
            | none => (.ok ("Sorry, I couldn\x27t find the internal transfer payee for account \"" ++ account.name ++ "\"."), tr0)
            | some sourceTransferPayee =>
              let withdrawal : LedgerTxn :=
                { date := env.today
                  amount := -(|amountInCents|)
                  payee := some destinationTransferPayee.id
                  payee_name := none
                  notes := some (if td.description == "" then "Transfer to " ++ destinationAccount.name else td.description)
                  category := none
                  cleared := false }
              let deposit : LedgerTxn :=
                { date := env.today
                  amount := |amountInCents|
                  payee := some sourceTransferPayee.id
                  payee_name := none
                  notes := some (if td.description == "" then "Transfer from " ++ account.name else td.description)
                  category := none
                  cleared := false }
              (.ok td.message_to_user,
               tr0 ++ [.addTransactions account.id [withdrawal], .addTransactions destinationAccount.id [deposit]])
    else
      match findByNameCat env.categories td.category with
      | none => (.ok ("Sorry, I couldn\x27t find a category named \"" ++ td.category ++ "\"."), tr0)
      | some category =>
        let newTransaction : LedgerTxn :=
          { date := env.today
            amount := if env.transactionDetail == "income" then |amountInCents| else -(|amountInCents|)
            payee := none
            payee_name := td.payee
            notes := some td.description
            category := some category.id
            cleared := false }
        (.ok td.message_to_user, tr0 ++ [.addTransactions account.id [newTransaction]])

/-- Summary part of the budget branch: reads `categoryGroups` (spelled
correctly at this site) and lists every non-income group. -/
def budgetSummary (bm : BudgetMonth) : Except JsError (Option String) :=
  match bm.categoryGroups with
  | none => .error (.typeError "Cannot read properties of undefined (reading forEach)")
  | some groups =>
    let parts := groups.foldl
      (fun acc group =>
        if !group.is_income then
          acc ++ ["\n*" ++ group.name ++ "*"] ++
            group.categories.map (fun cat => "- " ++ cat.name ++ ": " ++ formatIDR ((cat.balance : ℚ) / 100))
        else acc)
      ["*📊 Monthly Budget Summary:*"]
    .ok (some (String.intercalate "\n" parts))

/-- Named-category part of the budget branch: the source reads
`budgetData.categorGroups` (note the missing letter), so when the response
carries only the correctly spelled field the read yields undefined and the
`flatMap` call raises a TypeError. -/
def namedBudget (bm : BudgetMonth) (name : String) : Except JsError (Option String) :=
  match bm.categorGroups with
  | none => .error (.typeError "Cannot read properties of undefined (reading flatMap)")
  | some groups =>
    match findBudgetCat groups name with
    | some category =>
      let budgeted := formatIDR ((category.budgeted : ℚ) / 100)
      let spent := formatIDR (|(category.spent : ℚ) / 100|)
      let balance := formatIDR ((category.balance : ℚ) / 100)
      .ok (some ("*📊 Budget for " ++ category.name ++ ":*\n- *Budgeted:* " ++ budgeted ++
        "\n- *Spent:* " ++ spent ++ "\n- *Remaining:* " ++ balance))
    | none => .ok (some ("Sorry, I couldn\x27t find a budget category named \"" ++ name ++ "\"."))

/-- Body of the `intent === query_balance` try block.  Returns the value of
`finalResponse` (`none` when it was left undefined) or the raised error,
plus the effects of the block. -/
def balanceBranch (env : Env) (userInput : String) : Except JsError (Option String) × List Effect :=
  let tr0 : List Effect := [.actualInit, .getAccounts, .getCategories, .processBalanceQuery userInput]
  let q := env.balQuery
  if q.query_type == "account" then
    match q.name with
    | none => (.error (.typeError "Cannot read properties of null (reading toLowerCase)"), tr0)
    | some name =>
      if lowerStr name == "all" then
        let openAccounts := env.accounts.filter (fun acc => !acc.closed)
        let balanceLines := openAccounts.map
          (fun acc => "*" ++ acc.name ++ ":* " ++ formatIDR ((env.balances acc.id : ℚ) / 100))
        let balanceEffects := openAccounts.map (fun acc => Effect.getAccountBalance acc.id)
        (.ok (some (String.intercalate "\n" ("*🏦 All Account Balances:*" :: balanceLines))), tr0 ++ balanceEffects)
      else
        match findByNameAcc env.accounts name with
        | some account =>
          (.ok (some (String.intercalate "\n"
              ["*🏦 Account Balance:*", "*" ++ account.name ++ ":* " ++ formatIDR ((env.balances account.id : ℚ) / 100)])),
           tr0 ++ [.getAccountBalance account.id])
        | none => (.ok (some ("Sorry, I couldn\x27t find an account named \"" ++ name ++ "\".")), tr0)
  else if q.query_type == "budget" || q.query_type == "summary" then
    let tr1 := tr0 ++ [Effect.getBudgetMonth env.currentMonth]
    let r := match q.name with
      | some name =>
        if name != "" && lowerStr name != "all" then namedBudget env.budgetMonth name
        else budgetSummary env.budgetMonth
      | none => budgetSummary env.budgetMonth
    (r, tr1)
  else
    (.ok none, tr0)

/-- Processing of a message event that carried a (truthy) id: the
idempotency gate followed by the intent branches.  On a raised error the
catch block assigns the generic apology to `finalResponse` but immediately
rethrows, so execution never reaches the final `sendTextMessage`; the
finally block always appends the budgeting shutdown in the two budgeting
branches. -/
def processMessage (env : Env) (store : List String) (payload : Payload) (eventId : String) : RunResult :=
  if store.contains eventId then
    { result := .ok { statusCode := 200, status := "duplicate_ignored" }, store := store, trace := [.findOne eventId] }
  else
    let store1 := store ++ [eventId]
    let userInput := payload.body
    let tr1 : List Effect := [.findOne eventId, .createRecord eventId, .sendSeen payload.fromAddr, .determineIntent userInput]
    if env.intent == "transaction" then
      let br := transactionBranch env userInput
      match br.1 with
      | .error e => { result := .error e, store := store1, trace := tr1 ++ br.2 ++ [.shutdown] }
      | .ok finalResponse =>
        { result := .ok { statusCode := 200, status := "received" }, store := store1,
          trace := tr1 ++ br.2 ++ [.shutdown, .sendTextMessage payload.fromAddr (some finalResponse)] }
    else if env.intent == "query_balance" then
      let br := balanceBranch env userInput
      match br.1 with
      | .error e => { result := .error e, store := store1, trace := tr1 ++ br.2 ++ [.shutdown] }
      | .ok finalResponse =>
        { result := .ok { statusCode := 200, status := "received" }, store := store1,
          trace := tr1 ++ br.2 ++ [.shutdown, .sendTextMessage payload.fromAddr finalResponse] }
    else if env.intent == "question" then
      { result := .ok { statusCode := 200, status := "received" }, store := store1,
        trace := tr1 ++ [.getAnswer userInput, .sendTextMessage payload.fromAddr (some env.answer)] }
    else
      { result := .ok { statusCode := 200, status := "received" }, store := store1,
        trace := tr1 ++ [.sendTextMessage payload.fromAddr none] }

/-- The guard of the controller: `event === message && payload &&
payload.id` with JavaScript truthiness (an empty id string is falsy). -/
def hasEventId (req : WebhookRequest) : Bool :=
  req.event == "message" &&
    (match req.payload with
     | some payload => (match payload.id with | some eventId => eventId != "" | none => false)
     | none => false)

/-- The webhook controller: guard, then message processing, otherwise a
plain received acknowledgement with no side effects. -/
def handleWebhook (env : Env) (store : List String) (req : WebhookRequest) : RunResult :=
  if req.event == "message" then
    match req.payload with
    | some payload =>
      match payload.id with
      | some eventId =>
        if eventId != "" then processMessage env store payload eventId
        else { result := .ok { statusCode := 200, status := "received" }, store := store, trace := [] }
      | none => { result := .ok { statusCode := 200, status := "received" }, store := store, trace := [] }
    | none => { result := .ok { statusCode := 200, status := "received" }, store := store, trace := [] }
  else { result := .ok { statusCode := 200, status := "received" }, store := store, trace := [] }

/-- Messages delivered through the messaging collaborator, in order. -/
def sentMessages (tr : List Effect) : List (String × Option String) :=
  tr.filterMap (fun e => match e with
    | .sendTextMessage t msg => some (t, msg)
    | _ => none)

/-- Ledger postings made to the budgeting backend, in order. -/
def postedTxns (tr : List Effect) : List (String × List LedgerTxn) :=
  tr.filterMap (fun e => match e with
    | .addTransactions accId txns => some (accId, txns)
    | _ => none)


/-! Concrete fixtures used by witnesses and counterexamples. -/

/-- Open account named Cash. -/
def accCash : Account := { id := "acc-cash", name := "Cash", closed := false }

/-- Open account named Gopay. -/
def accGopay : Account := { id := "acc-gopay", name := "Gopay", closed := false }

/-- Closed account named BRI. -/
def accBRI : Account := { id := "acc-bri", name := "BRI", closed := true }

/-- Category named Food & Drink. -/
def catFood : Category := { id := "cat-food", name := "Food & Drink" }

/-- Internal transfer payee of the Cash account. -/
def payeeToCash : Payee := { id := "pay-cash", name := "Transfer: Cash", transfer_acct := some "acc-cash" }

/-- Internal transfer payee of the Gopay account. -/
def payeeToGopay : Payee := { id := "pay-gopay", name := "Transfer: Gopay", transfer_acct := some "acc-gopay" }

/-- Baseline environment; individual scenarios override fields. -/
def baseEnv : Env :=
  { intent := "question"
    transactionDetail := "expense"
    txExtract :=
      { description := "d", amount := 0, category := "", payee := none,
        source_account_name := "", message_to_user := "done" }
    balQuery := { query_type := "account", name := none }
    answer := "hi"
    accounts := [accCash, accGopay, accBRI]
    categories := [catFood]
    payees := [payeeToCash, payeeToGopay]
    budgetMonth := { categorGroups := none, categoryGroups := none }
    balances := fun _ => 0
    today := "2026-10-11"
    currentMonth := "2026-10" }

/-- A message-event request with the given event id. -/
def reqMsg (eid : String) : WebhookRequest :=
  { event := "message",
    payload := some { fromAddr := "628@c.us", toAddr := "bot@c.us", body := "halo", id := some eid } }

/-! Claim theorems. -/

/-- C9: a webhook invocation whose event is not message, or whose payload
carries no (truthy) id, is acknowledged 200 with status received while the
idempotency store is neither read nor written and no messaging,
language-model or budgeting call happens: the whole effect trace is empty
and the store is returned unchanged. -/
theorem non_message_acknowledged (env : Env) (store : List String) (req : WebhookRequest)
    (h : hasEventId req = false) :
    handleWebhook env store req =
      { result := .ok { statusCode := 200, status := "received" }, store := store, trace := [] } := by
  obtain ⟨event, payload⟩ := req
  rcases payload with _ | p
  · simp only [handleWebhook]
    split <;> rfl
  · rcases hid : p.id with _ | eid
    · simp only [handleWebhook, hid]
      split <;> rfl
    · simp only [hasEventId, hid] at h
      simp only [handleWebhook, hid]
      by_cases hev : event == "message"
      · simp only [hev, Bool.true_and] at h
        simp [hev, h]
      · simp [hev]

/-- C9 witness: a presence event is acknowledged with an empty trace. -/
theorem non_message_acknowledged_witness :
    hasEventId { event := "presence", payload := none } = false ∧
    handleWebhook baseEnv ["seen"] { event := "presence", payload := none } =
      { result := .ok { statusCode := 200, status := "received" }, store := ["seen"], trace := [] } :=
  ⟨by decide, non_message_acknowledged baseEnv ["seen"] { event := "presence", payload := none } (by decide)⟩

/-- Helper: on a fresh event id the store gains exactly that id, a record
creation is traced, and every normal completion responds received. -/
theorem processMessage_fresh_cases (env : Env) (store : List String) (payload : Payload) (eventId : String)
    (hfresh : store.contains eventId = false) :
    (processMessage env store payload eventId).store = store ++ [eventId] ∧
    Effect.createRecord eventId ∈ (processMessage env store payload eventId).trace ∧
    ∀ resp, (processMessage env store payload eventId).result = .ok resp → resp.status = "received" := by
  unfold processMessage
  simp only [hfresh, Bool.false_eq_true, if_false]
  split
  · split <;> simp
  · split
    · split <;> simp
    · split <;> simp

/-- C1: with a message event carrying a truthy payload id, a second
invocation with an already-persisted event id responds duplicate_ignored,
makes no messaging, language-model or budgeting call and creates no record
(the trace is exactly the store lookup and the store is unchanged), while
a first invocation with a fresh id persists the id and, whenever it
completes normally, responds received. -/
theorem idempotency_gate (env : Env) (store : List String) (req : WebhookRequest)
    (payload : Payload) (eventId : String)
    (hev : req.event = "message") (hp : req.payload = some payload)
    (hid : payload.id = some eventId) (hne : eventId ≠ "") :
    (store.contains eventId = true →
      handleWebhook env store req =
        { result := .ok { statusCode := 200, status := "duplicate_ignored" },
          store := store, trace := [.findOne eventId] }) ∧
    (store.contains eventId = false →
      (handleWebhook env store req).store = store ++ [eventId] ∧
      Effect.createRecord eventId ∈ (handleWebhook env store req).trace ∧
      ∀ resp, (handleWebhook env store req).result = .ok resp → resp.status = "received") := by
  have hrun : handleWebhook env store req = processMessage env store payload eventId := by
    simp [handleWebhook, hev, hp, hid, hne]
  constructor
  · intro hdup
    rw [hrun]
    unfold processMessage
    rw [hdup]
    simp
  · intro hfresh
    rw [hrun]
    exact processMessage_fresh_cases env store payload eventId hfresh

/-- C1 witness: same event id twice; the first call persists it and
responds received, the second is ignored with only the store lookup. -/
theorem idempotency_gate_witness :
    (handleWebhook baseEnv ["evt-1"] (reqMsg "evt-1") =
      { result := .ok { statusCode := 200, status := "duplicate_ignored" },
        store := ["evt-1"], trace := [.findOne "evt-1"] }) ∧
    (handleWebhook baseEnv [] (reqMsg "evt-1")).store = [] ++ ["evt-1"] ∧
    Effect.createRecord "evt-1" ∈ (handleWebhook baseEnv [] (reqMsg "evt-1")).trace ∧
    ∀ resp, (handleWebhook baseEnv [] (reqMsg "evt-1")).result = .ok resp → resp.status = "received" := by
  refine ⟨?_, ?_⟩
  · exact (idempotency_gate baseEnv ["evt-1"] (reqMsg "evt-1") _ "evt-1" rfl rfl rfl (by decide)).1 (by decide)
  · exact (idempotency_gate baseEnv [] (reqMsg "evt-1") _ "evt-1" rfl rfl rfl (by decide)).2 (by decide)

/-- C8: name resolution succeeds exactly when some candidate name equals
the extracted name after lowercasing both sides; matching is exact, with
no trimming and no substring matching, so gopay resolves against an
account named Gopay while a trailing space defeats the match. -/
theorem name_resolution_exact (name : String) (accounts : List Account) (categories : List Category) :
    ((findByNameAcc accounts name).isSome ↔ ∃ a ∈ accounts, lowerStr a.name = lowerStr name) ∧
    ((findByNameCat categories name).isSome ↔ ∃ c ∈ categories, lowerStr c.name = lowerStr name) ∧
    (findByNameAcc [{ id := "acc-gopay", name := "Gopay", closed := false }] "gopay").isSome = true ∧
    (findByNameCat [{ id := "cat-groceries", name := "Groceries" }] "Groceries ").isSome = false := by
  refine ⟨?_, ?_, by decide, by decide⟩ <;>
    simp [findByNameAcc, findByNameCat, List.find?_isSome]

/-- Transfer extraction whose payee came back null; source account Cash. -/
def envNullPayee : Env :=
  { baseEnv with
    intent := "transaction"
    transactionDetail := "transfer"
    txExtract :=
      { description := "pindah dana", amount := 50, category := "Food & Drink", payee := none,
        source_account_name := "Cash", message_to_user := "ok" } }

/-- Transfer extraction whose payee came back null; source account Gopay. -/
def envNullPayee2 : Env :=
  { baseEnv with
    intent := "transaction"
    transactionDetail := "transfer"
    txExtract :=
      { description := "pindah saldo", amount := 75, category := "Food & Drink", payee := none,
        source_account_name := "Gopay", message_to_user := "ok" } }

/-- The transaction branch never performs a messaging call: its trace
contains budgeting and extraction effects only. -/
theorem transactionBranch_sentMessages (env : Env) (userInput : String) :
    sentMessages (transactionBranch env userInput).2 = [] := by
  unfold transactionBranch
  rcases hsrc : findByNameAcc env.accounts env.txExtract.source_account_name with _ | account
  · simp [hsrc, sentMessages]
  · simp only [hsrc]
    by_cases hdet : (env.transactionDetail == "transfer") = true
    · simp only [hdet, if_true]
      rcases hpay : env.txExtract.payee with _ | payeeName
      · simp [hpay, sentMessages]
      · simp only [hpay]
        rcases hdst : findByNameAcc env.accounts payeeName with _ | dest
        · simp [hdst, sentMessages]
        · simp only [hdst]
          rcases hdp : findTransferPayee env.payees dest.id with _ | dp
          · simp [hdp, sentMessages]
          · simp only [hdp]
            rcases hsp : findTransferPayee env.payees account.id with _ | sp <;>
              simp [hsp, sentMessages]
    · simp only [hdet, if_false]
      rcases hcat : findByNameCat env.categories env.txExtract.category with _ | cat <;>
        simp [hcat, sentMessages]

/-- C10: a transfer whose extraction returned a null payee makes the
branch dereference the null payee and raise a TypeError, so no ledger
transaction is posted, no reply is delivered, the budgeting session is
still released by the finally step, and the request fails as an internal
error. -/
theorem transfer_null_payee_throws (env : Env) (store : List String) (req : WebhookRequest)
    (payload : Payload) (eventId : String) (account : Account)
    (hev : req.event = "message") (hp : req.payload = some payload)
    (hid : payload.id = some eventId) (hne : eventId ≠ "")
    (hfresh : store.contains eventId = false)
    (hintent : env.intent = "transaction")
    (hdetail : env.transactionDetail = "transfer")
    (hsrc : findByNameAcc env.accounts env.txExtract.source_account_name = some account)
    (hpayee : env.txExtract.payee = none) :
    (handleWebhook env store req).result =
      .error (.typeError "Cannot read properties of null (reading toLowerCase)") ∧
    postedTxns (handleWebhook env store req).trace = [] ∧
    Effect.shutdown ∈ (handleWebhook env store req).trace ∧
    sentMessages (handleWebhook env store req).trace = [] := by
  have hrun : handleWebhook env store req = processMessage env store payload eventId := by
    simp [handleWebhook, hev, hp, hid, hne]
  have hbr : transactionBranch env payload.body =
      (.error (.typeError "Cannot read properties of null (reading toLowerCase)"),
       [.actualInit, .getAccounts, .getCategories, .getPayees, .processTransaction payload.body]) := by
    simp [transactionBranch, hsrc, hdetail, hpayee]
  rw [hrun]
  unfold processMessage
  rw [hfresh]
  simp [hintent, hbr, postedTxns, sentMessages]

/-- C10 witness: the null-payee transfer on the Cash account raises, posts
nothing, releases the session and sends nothing. -/
theorem transfer_null_payee_throws_witness :
    (handleWebhook envNullPayee [] (reqMsg "evt-10")).result =
      .error (.typeError "Cannot read properties of null (reading toLowerCase)") ∧
    postedTxns (handleWebhook envNullPayee [] (reqMsg "evt-10")).trace = [] ∧
    Effect.shutdown ∈ (handleWebhook envNullPayee [] (reqMsg "evt-10")).trace ∧
    sentMessages (handleWebhook envNullPayee [] (reqMsg "evt-10")).trace = [] :=
  transfer_null_payee_throws envNullPayee [] (reqMsg "evt-10") _ "evt-10" accCash
    rfl rfl rfl (by decide) (by decide) rfl rfl (by decide) rfl

/-- C2 counterexample: an error raised and caught inside the transaction
branch (here the null-payee TypeError) reaches the request level while no
sendTextMessage call at all is made, so the generic apology is never
delivered to the user. -/
theorem generic_apology_not_delivered_cex :
    (handleWebhook envNullPayee2 [] (reqMsg "evt-2")).result =
      .error (.typeError "Cannot read properties of null (reading toLowerCase)") ∧
    sentMessages (handleWebhook envNullPayee2 [] (reqMsg "evt-2")).trace = [] := by
  decide

/-- C2 amended: on every error raised and caught inside the transaction
branch the handler re-raises after the finally step, so the request fails
with that error, the budgeting session is released, and no messaging call
happens: the assigned generic apology is never delivered. -/
theorem transaction_error_no_reply (env : Env) (store : List String) (req : WebhookRequest)
    (payload : Payload) (eventId : String) (e : JsError)
    (hev : req.event = "message") (hp : req.payload = some payload)
    (hid : payload.id = some eventId) (hne : eventId ≠ "")
    (hfresh : store.contains eventId = false)
    (hintent : env.intent = "transaction")
    (hbr : (transactionBranch env payload.body).1 = .error e) :
    (handleWebhook env store req).result = .error e ∧
    sentMessages (handleWebhook env store req).trace = [] ∧
    Effect.shutdown ∈ (handleWebhook env store req).trace := by
  have hrun : handleWebhook env store req = processMessage env store payload eventId := by
    simp [handleWebhook, hev, hp, hid, hne]
  rw [hrun]
  unfold processMessage
  rw [hfresh]
  simp [hintent, hbr, sentMessages]
  have h := transactionBranch_sentMessages env payload.body
  simpa [sentMessages] using h

/-- C2 amended witness: concrete erroring run, with the error propagated,
nothing sent, and the session released. -/
theorem transaction_error_no_reply_witness :
    (handleWebhook envNullPayee2 ["old"] (reqMsg "evt-2b")).result =
      .error (.typeError "Cannot read properties of null (reading toLowerCase)") ∧
    sentMessages (handleWebhook envNullPayee2 ["old"] (reqMsg "evt-2b")).trace = [] ∧
    Effect.shutdown ∈ (handleWebhook envNullPayee2 ["old"] (reqMsg "evt-2b")).trace :=
  transaction_error_no_reply envNullPayee2 ["old"] (reqMsg "evt-2b") _ "evt-2b"
    (.typeError "Cannot read properties of null (reading toLowerCase)")
    rfl rfl rfl (by decide) (by decide) rfl (by decide)


/-- Open account named Jago, which has no internal transfer payee in the
baseline payee list. -/
def accJago : Account := { id := "acc-jago", name := "Jago", closed := false }

/-- Fully resolvable transfer of 50000 from Cash to Gopay. -/
def envTransfer : Env :=
  { baseEnv with
    intent := "transaction"
    transactionDetail := "transfer"
    txExtract :=
      { description := "pindah", amount := 50000, category := "Food & Drink", payee := some "Gopay",
        source_account_name := "Cash", message_to_user := "siap 💸" } }

/-- Transfer from Cash to Jago, whose internal transfer payee is missing
while the source transfer payee exists. -/
def envTransferNoDp : Env :=
  { baseEnv with
    intent := "transaction"
    transactionDetail := "transfer"
    accounts := [accCash, accGopay, accBRI, accJago]
    txExtract :=
      { description := "pindah", amount := 25000, category := "Food & Drink", payee := some "Jago",
        source_account_name := "Cash", message_to_user := "siap" } }

/-- C3: in a transfer whose source account resolved, when any of the
remaining three lookups fails, nothing is posted to the budgeting backend
and the delivered reply names the failed lookup, checked destination
account first, then the destination transfer payee, then the source
transfer payee. -/
theorem transfer_lookup_precedence (env : Env) (store : List String) (req : WebhookRequest)
    (payload : Payload) (eventId : String) (account : Account) (payeeName : String)
    (hev : req.event = "message") (hp : req.payload = some payload)
    (hid : payload.id = some eventId) (hne : eventId ≠ "")
    (hfresh : store.contains eventId = false)
    (hintent : env.intent = "transaction")
    (hdetail : env.transactionDetail = "transfer")
    (hsrc : findByNameAcc env.accounts env.txExtract.source_account_name = some account)
    (hpay : env.txExtract.payee = some payeeName) :
    (findByNameAcc env.accounts payeeName = none →
      postedTxns (handleWebhook env store req).trace = [] ∧
      sentMessages (handleWebhook env store req).trace =
        [(payload.fromAddr, some ("Sorry, I couldn\x27t find a destination account named \"" ++ payeeName ++ "\" for the transfer."))]) ∧
    (∀ dest, findByNameAcc env.accounts payeeName = some dest →
      (findTransferPayee env.payees dest.id = none →
        postedTxns (handleWebhook env store req).trace = [] ∧
        sentMessages (handleWebhook env store req).trace =
          [(payload.fromAddr, some ("Sorry, I couldn\x27t find the internal transfer payee for account \"" ++ dest.name ++ "\"."))]) ∧
      (∀ dp, findTransferPayee env.payees dest.id = some dp →
        findTransferPayee env.payees account.id = none →
        postedTxns (handleWebhook env store req).trace = [] ∧
        sentMessages (handleWebhook env store req).trace =
          [(payload.fromAddr, some ("Sorry, I couldn\x27t find the internal transfer payee for account \"" ++ account.name ++ "\"."))])) := by
  have hrun : handleWebhook env store req = processMessage env store payload eventId := by
    simp [handleWebhook, hev, hp, hid, hne]
  refine ⟨?_, ?_⟩
  · intro hdst
    have hbr : transactionBranch env payload.body =
        (.ok ("Sorry, I couldn\x27t find a destination account named \"" ++ payeeName ++ "\" for the transfer."),
         [.actualInit, .getAccounts, .getCategories, .getPayees, .processTransaction payload.body]) := by
      simp [transactionBranch, hsrc, hdetail, hpay, hdst]
    rw [hrun]
    unfold processMessage
    rw [hfresh]
    simp [hintent, hbr, postedTxns, sentMessages]
  · intro dest hdst
    refine ⟨?_, ?_⟩
    · intro hdp
      have hbr : transactionBranch env payload.body =
          (.ok ("Sorry, I couldn\x27t find the internal transfer payee for account \"" ++ dest.name ++ "\"."),
           [.actualInit, .getAccounts, .getCategories, .getPayees, .processTransaction payload.body]) := by
        simp [transactionBranch, hsrc, hdetail, hpay, hdst, hdp]
      rw [hrun]
      unfold processMessage
      rw [hfresh]
      simp [hintent, hbr, postedTxns, sentMessages]
    · intro dp hdp hsp
      have hbr : transactionBranch env payload.body =
          (.ok ("Sorry, I couldn\x27t find the internal transfer payee for account \"" ++ account.name ++ "\"."),
           [.actualInit, .getAccounts, .getCategories, .getPayees, .processTransaction payload.body]) := by
        simp [transactionBranch, hsrc, hdetail, hpay, hdst, hdp, hsp]
      rw [hrun]
      unfold processMessage
      rw [hfresh]
      simp [hintent, hbr, postedTxns, sentMessages]

/-- C3 witness: transfer to Jago, whose internal transfer payee is
missing; nothing is posted and the reply names Jago, the destination, not
Cash, the source. -/
theorem transfer_lookup_precedence_witness :
    postedTxns (handleWebhook envTransferNoDp [] (reqMsg "evt-3")).trace = [] ∧
    sentMessages (handleWebhook envTransferNoDp [] (reqMsg "evt-3")).trace =
      [("628@c.us", some ("Sorry, I couldn\x27t find the internal transfer payee for account \"" ++ "Jago" ++ "\"."))] := by
  have h := (transfer_lookup_precedence envTransferNoDp [] (reqMsg "evt-3") _ "evt-3" accCash "Jago"
    rfl rfl rfl (by decide) (by decide) rfl rfl (by decide) rfl).2 accJago (by decide)
  exact h.1 (by decide)

/-- C5: a transfer in which all four resolutions succeed posts exactly two
ledger transactions, a withdrawal on the source account with the negated
absolute amount in minor units and the destination transfer payee id, and
a deposit on the destination account with the positive absolute amount and
the source transfer payee id, both dated today and not cleared, and the
delivered reply is the model-supplied message_to_user. -/
theorem transfer_success_two_postings (env : Env) (store : List String) (req : WebhookRequest)
    (payload : Payload) (eventId : String) (account : Account) (payeeName : String)
    (dest : Account) (dp : Payee) (sp : Payee)
    (hev : req.event = "message") (hp : req.payload = some payload)
    (hid : payload.id = some eventId) (hne : eventId ≠ "")
    (hfresh : store.contains eventId = false)
    (hintent : env.intent = "transaction")
    (hdetail : env.transactionDetail = "transfer")
    (hsrc : findByNameAcc env.accounts env.txExtract.source_account_name = some account)
    (hpay : env.txExtract.payee = some payeeName)
    (hdst : findByNameAcc env.accounts payeeName = some dest)
    (hdp : findTransferPayee env.payees dest.id = some dp)
    (hsp : findTransferPayee env.payees account.id = some sp) :
    postedTxns (handleWebhook env store req).trace =
      [(account.id,
        [{ date := env.today, amount := -(|env.txExtract.amount * 100|), payee := some dp.id,
           payee_name := none,
           notes := some (if env.txExtract.description == "" then "Transfer to " ++ dest.name else env.txExtract.description),
           category := none, cleared := false }]),
       (dest.id,
        [{ date := env.today, amount := |env.txExtract.amount * 100|, payee := some sp.id,
           payee_name := none,
           notes := some (if env.txExtract.description == "" then "Transfer from " ++ account.name else env.txExtract.description),
           category := none, cleared := false }])] ∧
    sentMessages (handleWebhook env store req).trace =
      [(payload.fromAddr, some env.txExtract.message_to_user)] ∧
    (handleWebhook env store req).result = .ok { statusCode := 200, status := "received" } := by
  have hrun : handleWebhook env store req = processMessage env store payload eventId := by
    simp [handleWebhook, hev, hp, hid, hne]
  have hbr : transactionBranch env payload.body =
      (.ok env.txExtract.message_to_user,
       [.actualInit, .getAccounts, .getCategories, .getPayees, .processTransaction payload.body,
        .addTransactions account.id
          [{ date := env.today, amount := -(|env.txExtract.amount * 100|), payee := some dp.id,
             payee_name := none,
             notes := some (if env.txExtract.description == "" then "Transfer to " ++ dest.name else env.txExtract.description),
             category := none, cleared := false }],
        .addTransactions dest.id
          [{ date := env.today, amount := |env.txExtract.amount * 100|, payee := some sp.id,
             payee_name := none,
             notes := some (if env.txExtract.description == "" then "Transfer from " ++ account.name else env.txExtract.description),
             category := none, cleared := false }]]) := by
    simp [transactionBranch, hsrc, hdetail, hpay, hdst, hdp, hsp]
  rw [hrun]
  unfold processMessage
  rw [hfresh]
  simp [hintent, hbr, postedTxns, sentMessages]

/-- C5 witness: the Cash to Gopay transfer of 50000 posts the withdrawal
and deposit with amounts in minor units and the crossed transfer payee
ids, and replies with the extraction message. -/
theorem transfer_success_two_postings_witness :
    postedTxns (handleWebhook envTransfer [] (reqMsg "evt-5")).trace =
      [("acc-cash",
        [{ date := "2026-10-11", amount := -5000000, payee := some "pay-gopay", payee_name := none,
           notes := some "pindah", category := none, cleared := false }]),
       ("acc-gopay",
        [{ date := "2026-10-11", amount := 5000000, payee := some "pay-cash", payee_name := none,
           notes := some "pindah", category := none, cleared := false }])] ∧
    sentMessages (handleWebhook envTransfer [] (reqMsg "evt-5")).trace =
      [("628@c.us", some "siap 💸")] ∧
    (handleWebhook envTransfer [] (reqMsg "evt-5")).result = .ok { statusCode := 200, status := "received" } := by
  have h := transfer_success_two_postings envTransfer [] (reqMsg "evt-5") _ "evt-5"
    accCash "Gopay" accGopay payeeToGopay payeeToCash
    rfl rfl rfl (by decide) (by decide) rfl rfl (by decide) rfl (by decide) (by decide) (by decide)
  have habs : |(50000 : ℚ) * 100| = 5000000 := by
    rw [abs_of_nonneg] <;> norm_num
  refine ⟨?_, ?_, ?_⟩
  · have h1 := h.1
    simp only [envTransfer, baseEnv] at h1
    simpa [habs] using h1
  · have h2 := h.2.1
    simpa [envTransfer, baseEnv, reqMsg] using h2
  · exact h.2.2

/-- Income extraction whose amount string parsed to the negative value -5. -/
def envNegIncome : Env :=
  { baseEnv with
    intent := "transaction"
    transactionDetail := "income"
    txExtract :=
      { description := "refund", amount := -5, category := "Food & Drink", payee := some "Boss",
        source_account_name := "Cash", message_to_user := "ok" } }

/-- Income of 5000000 into Cash, the example of the specification. -/
def envIncome : Env :=
  { baseEnv with
    intent := "transaction"
    transactionDetail := "income"
    txExtract :=
      { description := "Gaji bulan ini", amount := 5000000, category := "Food & Drink", payee := some "Kantor",
        source_account_name := "Cash", message_to_user := "dicatat 💰" } }

/-- C4 counterexample: an income whose extracted amount parsed to -5 is
posted with ledger amount 500, the absolute value of the product, while
the claim as stated demands the signed product -500; the two differ. -/
theorem income_amount_sign_cex :
    postedTxns (handleWebhook envNegIncome [] (reqMsg "evt-4")).trace =
      [("acc-cash",
        [{ date := "2026-10-11", amount := |(-5 : ℚ) * 100|, payee := none, payee_name := some "Boss",
           notes := some "refund", category := some "cat-food", cleared := false }])] ∧
    |(-5 : ℚ) * 100| = 500 ∧
    ((-5 : ℚ) * 100) = -500 ∧
    (500 : ℚ) ≠ -500 := by
  refine ⟨rfl, ?_, by norm_num, by norm_num⟩
  have h : ((-5 : ℚ) * 100) = -500 := by norm_num
  rw [h, abs_neg, abs_of_nonneg]
  norm_num

/-- C4 amended: a resolved expense or income posts exactly one ledger
transaction on the source account whose amount is the absolute value of
the extracted amount times 100, positive for income and negated for
expense, with the extracted description as notes, the extracted payee as
payee_name, the resolved category id and cleared false, and the reply is
the model-supplied message. -/
theorem expense_income_posting (env : Env) (store : List String) (req : WebhookRequest)
    (payload : Payload) (eventId : String) (account : Account) (category : Category)
    (hev : req.event = "message") (hp : req.payload = some payload)
    (hid : payload.id = some eventId) (hne : eventId ≠ "")
    (hfresh : store.contains eventId = false)
    (hintent : env.intent = "transaction")
    (hdet : env.transactionDetail = "income" ∨ env.transactionDetail = "expense")
    (hsrc : findByNameAcc env.accounts env.txExtract.source_account_name = some account)
    (hcat : findByNameCat env.categories env.txExtract.category = some category) :
    postedTxns (handleWebhook env store req).trace =
      [(account.id,
        [{ date := env.today,
           amount := if env.transactionDetail == "income" then |env.txExtract.amount * 100| else -(|env.txExtract.amount * 100|),
           payee := none, payee_name := env.txExtract.payee, notes := some env.txExtract.description,
           category := some category.id, cleared := false }])] ∧
    sentMessages (handleWebhook env store req).trace =
      [(payload.fromAddr, some env.txExtract.message_to_user)] ∧
    (handleWebhook env store req).result = .ok { statusCode := 200, status := "received" } := by
  have hrun : handleWebhook env store req = processMessage env store payload eventId := by
    simp [handleWebhook, hev, hp, hid, hne]
  have hnt : (env.transactionDetail == "transfer") = false := by
    rcases hdet with h | h <;> simp [h]
  have hbr : transactionBranch env payload.body =
      (.ok env.txExtract.message_to_user,
       [.actualInit, .getAccounts, .getCategories, .getPayees, .processTransaction payload.body,
        .addTransactions account.id
          [{ date := env.today,
             amount := if env.transactionDetail == "income" then |env.txExtract.amount * 100| else -(|env.txExtract.amount * 100|),
             payee := none, payee_name := env.txExtract.payee, notes := some env.txExtract.description,
             category := some category.id, cleared := false }]]) := by
    simp [transactionBranch, hsrc, hnt, hcat]
  rw [hrun]
  unfold processMessage
  rw [hfresh]
  simp [hintent, hbr, postedTxns, sentMessages]

/-- C4 amended witness: income with amount 5000000 posts +500000000 minor
units on Cash with the extracted metadata and replies with the extraction
message. -/
theorem expense_income_posting_witness :
    postedTxns (handleWebhook envIncome [] (reqMsg "evt-4b")).trace =
      [("acc-cash",
        [{ date := "2026-10-11", amount := 500000000, payee := none, payee_name := some "Kantor",
           notes := some "Gaji bulan ini", category := some "cat-food", cleared := false }])] ∧
    sentMessages (handleWebhook envIncome [] (reqMsg "evt-4b")).trace =
      [("628@c.us", some "dicatat 💰")] ∧
    (handleWebhook envIncome [] (reqMsg "evt-4b")).result = .ok { statusCode := 200, status := "received" } := by
  have h := expense_income_posting envIncome [] (reqMsg "evt-4b") _ "evt-4b" accCash catFood
    rfl rfl rfl (by decide) (by decide) rfl (Or.inl rfl) (by decide) (by decide)
  have habs : |(5000000 : ℚ) * 100| = 500000000 := by
    rw [abs_of_nonneg] <;> norm_num
  refine ⟨?_, ?_, h.2.2⟩
  · have h1 := h.1
    simp only [envIncome, baseEnv] at h1
    simpa [habs] using h1
  · have h2 := h.2.1
    simpa [envIncome, baseEnv, reqMsg] using h2

/-- C7: an account balance query whose name is all, case-insensitively,
replies with a header plus exactly one line per account whose closed flag
is false, each line carrying the account balance divided from minor into
major units and rendered by the currency formatter (grouped digits, two
decimals); closed accounts produce no line and nothing is posted. -/
theorem balance_all_open_accounts (env : Env) (store : List String) (req : WebhookRequest)
    (payload : Payload) (eventId : String) (n : String)
    (hev : req.event = "message") (hp : req.payload = some payload)
    (hid : payload.id = some eventId) (hne : eventId ≠ "")
    (hfresh : store.contains eventId = false)
    (hintent : env.intent = "query_balance")
    (hq : env.balQuery.query_type = "account")
    (hn : env.balQuery.name = some n)
    (hall : lowerStr n = "all") :
    sentMessages (handleWebhook env store req).trace =
      [(payload.fromAddr, some (String.intercalate "\n"
        ("*🏦 All Account Balances:*" ::
          (env.accounts.filter (fun acc => !acc.closed)).map
            (fun acc => "*" ++ acc.name ++ ":* " ++ formatIDR ((env.balances acc.id : ℚ) / 100)))))] ∧
    postedTxns (handleWebhook env store req).trace = [] ∧
    (handleWebhook env store req).result = .ok { statusCode := 200, status := "received" } ∧
    formatIDR ((259562700 : ℚ) / 100) = "Rp 2.595.627,00" := by
  have hrun : handleWebhook env store req = processMessage env store payload eventId := by
    simp [handleWebhook, hev, hp, hid, hne]
  have hbr : balanceBranch env payload.body =
      (.ok (some (String.intercalate "\n"
        ("*🏦 All Account Balances:*" ::
          (env.accounts.filter (fun acc => !acc.closed)).map
            (fun acc => "*" ++ acc.name ++ ":* " ++ formatIDR ((env.balances acc.id : ℚ) / 100))))),
       [.actualInit, .getAccounts, .getCategories, .processBalanceQuery payload.body] ++
         (env.accounts.filter (fun acc => !acc.closed)).map (fun acc => Effect.getAccountBalance acc.id)) := by
    simp [balanceBranch, hq, hn, hall]
  have hfmt : formatIDR ((259562700 : ℚ) / 100) = "Rp 2.595.627,00" := by
    have hd : ((259562700 : ℚ) / 100) = 2595627 := by norm_num
    rw [hd]
    decide
  have hint2 : (env.intent == "transaction") = false := by simp [hintent]
  rw [hrun]
  unfold processMessage
  rw [hfresh]
  simp [hint2, hintent, hbr, postedTxns, sentMessages, List.filterMap_append, hfmt]

/-- Balance query for all accounts over two open accounts and one closed
account, with distinct balances. -/
def envBalAll : Env :=
  { baseEnv with
    intent := "query_balance"
    balQuery := { query_type := "account", name := some "All" }
    balances := fun i => if i == "acc-cash" then 15000000 else 250000 }

/-- C7 witness: two open accounts and one closed; the reply lists exactly
Cash and Gopay with grouped two-decimal currency strings, and the closed
BRI account produces no line. -/
theorem balance_all_open_accounts_witness :
    sentMessages (handleWebhook envBalAll [] (reqMsg "evt-7")).trace =
      [("628@c.us", some "*🏦 All Account Balances:*\n*Cash:* Rp 150.000,00\n*Gopay:* Rp 2.500,00")] ∧
    postedTxns (handleWebhook envBalAll [] (reqMsg "evt-7")).trace = [] ∧
    (handleWebhook envBalAll [] (reqMsg "evt-7")).result = .ok { statusCode := 200, status := "received" } := by
  have h := balance_all_open_accounts envBalAll [] (reqMsg "evt-7") _ "evt-7" "All"
    rfl rfl rfl (by decide) (by decide) rfl rfl rfl (by decide)
  have hb1 : ((envBalAll.balances "acc-cash" : Int) : ℚ) / 100 = 150000 := by
    have hv : envBalAll.balances "acc-cash" = 15000000 := by decide
    rw [hv]; norm_num
  have hb2 : ((envBalAll.balances "acc-gopay" : Int) : ℚ) / 100 = 2500 := by
    have hv : envBalAll.balances "acc-gopay" = 250000 := by decide
    rw [hv]; norm_num
  refine ⟨?_, h.2.1, h.2.2.1⟩
  have h1 := h.1
  have hacc : envBalAll.accounts.filter (fun acc => !acc.closed) = [accCash, accGopay] := by decide
  rw [hacc] at h1
  simp only [List.map_cons, List.map_nil, accCash, accGopay] at h1
  rw [hb1, hb2] at h1
  have hf1 : formatIDR (150000 : ℚ) = "Rp 150.000,00" := by decide
  have hf2 : formatIDR (2500 : ℚ) = "Rp 2.500,00" := by decide
  rw [hf1, hf2] at h1
  simpa using h1

/-- Category groups as the real budgeting API returns them for the month,
holding the category the query names. -/
def realBudgetGroups : List CategoryGroup :=
  [{ name := "Usual Expenses", is_income := false,
     categories := [{ name := "Makanan", budgeted := 200000000, spent := -50000000, balance := 150000000 }] }]

/-- Budget query for the category Makanan against a budget-month response
that carries the field under its real name categoryGroups only. -/
def envBudgetReal : Env :=
  { baseEnv with
    intent := "query_balance"
    balQuery := { query_type := "budget", name := some "Makanan" }
    budgetMonth := { categorGroups := none, categoryGroups := some realBudgetGroups } }

/-- C6: against the real budgeting backend contract, where the month
response carries categoryGroups only, the named-category branch reads the
misspelled field categorGroups, obtains undefined and raises a TypeError:
the user gets neither the budget figures nor a not-found message and the
request fails, even though the named category is present in the groups the
backend returned. -/
theorem budget_category_field_bug :
    (handleWebhook envBudgetReal [] (reqMsg "evt-6")).result =
      .error (.typeError "Cannot read properties of undefined (reading flatMap)") ∧
    sentMessages (handleWebhook envBudgetReal [] (reqMsg "evt-6")).trace = [] ∧
    postedTxns (handleWebhook envBudgetReal [] (reqMsg "evt-6")).trace = [] ∧
    Effect.getBudgetMonth "2026-10" ∈ (handleWebhook envBudgetReal [] (reqMsg "evt-6")).trace ∧
    findBudgetCat realBudgetGroups "Makanan" =
      some { name := "Makanan", budgeted := 200000000, spent := -50000000, balance := 150000000 } := by
  decide

end ExpTrackerBot
